import Mathlib

/-
Verification of the data_fetcher pipeline (src/data_fetcher/main.py) against
its natural-language specification.

The embedding below translates the module line by line.  External
collaborators are modelled at the granularity the code exercises them:

  * datetime values are calendar tuples at second precision; subtraction
    yields a second count through a mixed-radix linearisation whose
    within-month differences agree exactly with real elapsed seconds
    (no statement below exercises cross-month arithmetic);
  * datetime.strptime with format %Y-%m-%d-%H-%M-%S is modelled as a
    six-field dash-separated numeric parser with the per-field widths and
    ranges of that format, failing (ValueError) otherwise;
  * the pyplot module is modelled as an explicit drawing state threaded
    through the calls the source makes (subplot, title, axhline, plot,
    suptitle); subplot rows cols num requires 1 <= num <= rows*cols and
    raises ValueError otherwise, as matplotlib documents;
  * the remote store is a pure map from reference path to an optional
    association list of (timestamp-key, record); the source reads the same
    reference twice (lines 39 and 79), and a pure map makes both reads
    coincide;
  * Python dict lookup value[k] raises KeyError k when k is absent;
  * Python name resolution: the module imports (lines 1-5) bind datetime,
    timedelta, credentials, db and plt; the names sys (used at line 28) and
    firebase_admin (used at line 34) are never bound, so evaluating them
    raises NameError.

Float values only flow through the pipeline (they are never combined
arithmetically), so measured values are carried as integers.
-/

deriving instance DecidableEq for Except

namespace DataFetcher

/-- Calendar date-time at second precision, the shape the external datetime
collaborator produces for keys of the form YYYY-MM-DD-HH-MM-SS. -/
structure DateTime where
  year : Nat
  month : Nat
  day : Nat
  hour : Nat
  minute : Nat
  second : Nat
deriving DecidableEq

/-- Linearisation of a date-time to a second count, mixed-radix with strict
per-field bounds (month < 13, day < 32, hour < 24, minute < 60, second < 60),
so that comparisons within a month agree exactly with real elapsed seconds. -/
def DateTime.toSec (d : DateTime) : Int :=
  ((((d.year * 13 + d.month) * 32 + d.day) * 24 + d.hour) * 60 + d.minute) * 60 + d.second

/-- Subtraction of date-times (Python: now - date), as a signed second count. -/
def DateTime.sub (a b : DateTime) : Int :=
  a.toSec - b.toSec

/-- Source lines 8-17: the interval table mapping a symbolic period name to a
duration, here in seconds.  An unrecognized name makes the Python dict lookup
raise KeyError (the condition the spec calls UnknownIntervalError), modelled
as none.  Pure function, no side effects. -/
def get_time_period (literal : String) : Option Int :=
  if literal = "cycle" then some 600
  else if literal = "hour" then some 3600
  else if literal = "day" then some 86400
  else if literal = "week" then some 604800
  else if literal = "month" then some 2592000
  else none

/-- Source lines 81-82: delta = now - date, accepted when delta < window with
strict inequality and no sign check.  The window is generalised to a
parameter; the pass instantiates it with the day entry of the table. -/
def is_recent (date now : DateTime) (window : Int) : Bool :=
  decide (DateTime.sub now date < window)

/-- Split a character list at every dash, keeping empty groups, mirroring how
a dash-separated format consumes its fields. -/
def splitDash : List Char → List (List Char)
  | [] => [[]]
  | c :: rest =>
    let r := splitDash rest
    if c = '-' then [] :: r
    else
      match r with
      | [] => [[c]]
      | g :: gs => (c :: g) :: gs

/-- Numeric value of an all-digit, nonempty character group. -/
def digitsToNat (cs : List Char) : Option Nat :=
  if cs ≠ [] ∧ cs.all (fun c => c.isDigit) then
    some (cs.foldl (fun a c => a * 10 + (c.toNat - 48)) 0)
  else none

/-- One numeric field of the timestamp format: digit count between minLen and
maxLen, value between lo and hi. -/
def parseField (minLen maxLen lo hi : Nat) (cs : List Char) : Option Nat :=
  match digitsToNat cs with
  | none => none
  | some n =>
    if minLen ≤ cs.length ∧ cs.length ≤ maxLen ∧ lo ≤ n ∧ n ≤ hi then some n
    else none

/-- Model of the external strptime collaborator for format
%Y-%m-%d-%H-%M-%S (source line 80): six dash-separated numeric fields, a
four-digit year and one-or-two-digit month or day or hour or minute or second
within the ranges of the format; none models the ValueError strptime raises
on anything else. -/
def parseTimestamp (key : String) : Option DateTime :=
  match splitDash key.toList with
  | [y, mo, d, h, mi, s] =>
    match parseField 4 4 0 9999 y, parseField 1 2 1 12 mo, parseField 1 2 1 31 d,
          parseField 1 2 0 23 h, parseField 1 2 0 59 mi, parseField 1 2 0 59 s with
    | some yv, some mov, some dv, some hv, some miv, some sv =>
      some ⟨yv, mov, dv, hv, miv, sv⟩
    | _, _, _, _, _, _ => none
  | _ => none

/-- Python exceptions the pipeline can raise. -/
inductive PyErr
  | keyError (key : String)
  | valueError (msg : String)
deriving DecidableEq

/-- A fetched record: a finite map from field name to measured value, as the
store returns it.  A missing field makes dict lookup raise KeyError. -/
structure Record where
  fields : List (String × Int)
deriving DecidableEq

/-- Python dict lookup value[k] returning none when the key is absent. -/
def Record.find (r : Record) (k : String) : Option Int :=
  (r.fields.find? (fun p => p.1 == k)).map (fun p => p.2)

/-- Python dict lookup value[k], raising KeyError k when absent. -/
def getItem (r : Record) (k : String) : Except PyErr Int :=
  match r.find k with
  | some v => Except.ok v
  | none => Except.error (PyErr.keyError k)

/-- A subplot cell, identified by the (rows, cols, num) triple the source
passes to plt.subplot. -/
abbrev Cell := Nat × Nat × Nat

/-- Drawing state of the external pyplot collaborator: the currently selected
cell and the accumulated titles, horizontal threshold lines, plotted points
and suptitle, each in call order. -/
structure PlotState where
  current : Cell
  titles : List (Cell × String)
  hlines : List (Cell × (Int × String))
  points : List (Cell × (DateTime × Int))
  suptitleText : Option String
deriving DecidableEq

/-- Fresh figure (source line 44): nothing drawn yet; before any subplot call
pyplot would draw on a default full-figure axes, recorded as (1, 1, 1). -/
def initState : PlotState :=
  { current := (1, 1, 1), titles := [], hlines := [], points := [], suptitleText := none }

/-- plt.subplot rows cols num: selects the cell, and raises ValueError when
num is outside 1..rows*cols (matplotlib: num must be an integer with
1 <= num <= rows*cols). -/
def subplot (rows cols num : Nat) (st : PlotState) : Except PyErr PlotState :=
  if 1 ≤ num ∧ num ≤ rows * cols then
    Except.ok { st with current := (rows, cols, num) }
  else
    Except.error (PyErr.valueError
      ("num must be an integer with 1 <= num <= " ++ toString (rows * cols)
        ++ ", not " ++ toString num))

/-- plt.title on the current cell; a later call overwrites an earlier one, so
titles are accumulated and read back last-wins. -/
def title (st : PlotState) (s : String) : PlotState :=
  { st with titles := st.titles ++ [(st.current, s)] }

/-- plt.axhline on the current cell, with its legend label. -/
def axhline (st : PlotState) (y : Int) (label : String) : PlotState :=
  { st with hlines := st.hlines ++ [(st.current, (y, label))] }

/-- plt.plot of one (date, value) point on the current cell. -/
def plot (st : PlotState) (x : DateTime) (y : Int) : PlotState :=
  { st with points := st.points ++ [(st.current, (x, y))] }

/-- plt.suptitle of the whole figure. -/
def suptitle (st : PlotState) (s : String) : PlotState :=
  { st with suptitleText := some s }

/-- The effective title of a cell: the last one set on it. -/
def PlotState.titleOf (st : PlotState) (c : Cell) : Option String :=
  (st.titles.reverse.find? (fun p => decide (p.1 = c))).map (fun p => p.2)

/-- The panel series accumulated on a cell: its plotted (timestamp, value)
points in plotting order. -/
def PlotState.seriesAt (st : PlotState) (c : Cell) : List (DateTime × Int) :=
  st.points.filterMap (fun p => if p.1 = c then some p.2 else none)

/-- Source lines 44-75, the plot setup: five subplot selections and titles
(Temperature, Pressure, CH4, CO, then Humidity re-selecting cell (2,2,1)),
with the two danger-threshold lines; label, tick and legend cosmetics carry
no data and are not recorded. -/
def setupState : Except PyErr PlotState := do
  let st := initState
  let st ← subplot 2 2 1 st
  let st := title st "Temperature"
  let st ← subplot 2 2 2 st
  let st := title st "Pressure"
  let st ← subplot 2 2 3 st
  let st := title st "CH4"
  let st := axhline st 75 "CH4 danger threshold"
  let st ← subplot 2 2 4 st
  let st := title st "CO"
  let st := axhline st 1000 "CO danger threshold"
  let st ← subplot 2 2 1 st
  let st := title st "Humidity"
  Except.ok st

/-- The state the setup leaves behind, written out explicitly. -/
def setupStateOk : PlotState :=
  { current := (2, 2, 1)
    titles := [((2, 2, 1), "Temperature"), ((2, 2, 2), "Pressure"),
               ((2, 2, 3), "CH4"), ((2, 2, 4), "CO"), ((2, 2, 1), "Humidity")]
    hlines := [((2, 2, 3), (75, "CH4 danger threshold")),
               ((2, 2, 4), (1000, "CO danger threshold"))]
    points := []
    suptitleText := none }

/-- Source line 82: the call get_time_period with the literal day; a dict
KeyError would propagate, but the day entry exists in the table. -/
def windowLookup : Except PyErr Int :=
  match get_time_period "day" with
  | some w => Except.ok w
  | none => Except.error (PyErr.keyError "day")

/-- Source line 80: datetime.strptime on the record key; an unparsable key
raises ValueError, whose message carries the offending time data string. -/
def dateLookup (key : String) : Except PyErr DateTime :=
  match parseTimestamp key with
  | some d => Except.ok d
  | none => Except.error (PyErr.valueError
      ("time data " ++ key ++ " does not match format %Y-%m-%d-%H-%M-%S"))

/-- Source lines 80-97, one iteration of the fetch-and-plot loop: parse the
key (ValueError on failure), compute delta against now, look the window up in
the interval table, and when the reading is accepted plot its five quantities
on subplots (2,2,1) through (2,2,5) in source order, each value read by dict
lookup just before its plot call. -/
def processRecord (now : DateTime) (st : PlotState) (key : String) (value : Record) :
    Except PyErr PlotState := do
  let date ← dateLookup key
  let window ← windowLookup
  if is_recent date now window then do
    let st ← subplot 2 2 1 st
    let t ← getItem value "temperature"
    let st := plot st date t
    let st ← subplot 2 2 2 st
    let p ← getItem value "pressure"
    let st := plot st date p
    let st ← subplot 2 2 3 st
    let c4 ← getItem value "ch4"
    let st := plot st date c4
    let st ← subplot 2 2 4 st
    let co ← getItem value "co"
    let st := plot st date co
    let st ← subplot 2 2 5 st
    let h ← getItem value "humidity"
    Except.ok (plot st date h)
  else
    Except.ok st

/-- Source line 79: the loop over ref.get().items(), in the storage iteration
order of the fetched mapping; the first exception aborts the run. -/
def composePass (now : DateTime) (fetched : List (String × Record)) (st : PlotState) :
    Except PyErr PlotState :=
  match fetched with
  | [] => Except.ok st
  | (k, v) :: rest => do
    let st1 ← processRecord now st k v
    composePass now rest st1

/-- Source line 38: the database reference path, a fixed node hardware
address; the command-line NODE_IDENTIFIER does not flow into it. -/
def refPath : String :=
  "/logs/node_98:D3:71:F6:48:88"

/-- Zero-padded two-digit field of strftime. -/
def pad2 (n : Nat) : String :=
  if n < 10 then "0" ++ toString n else toString n

/-- Zero-padded four-digit field of strftime (%Y). -/
def pad4 (n : Nat) : String :=
  if n < 10 then "000" ++ toString n
  else if n < 100 then "00" ++ toString n
  else if n < 1000 then "0" ++ toString n
  else toString n

/-- strftime with format %Y_%m_%d_%H_%M_%S (source line 103). -/
def strftimeFile (d : DateTime) : String :=
  pad4 d.year ++ "_" ++ pad2 d.month ++ "_" ++ pad2 d.day ++ "_"
    ++ pad2 d.hour ++ "_" ++ pad2 d.minute ++ "_" ++ pad2 d.second

/-- strftime with the suptitle format %Y/%m/%d, %H:%M:%S (source line 102). -/
def strftimeTitle (d : DateTime) : String :=
  pad4 d.year ++ "/" ++ pad2 d.month ++ "/" ++ pad2 d.day ++ ", "
    ++ pad2 d.hour ++ ":" ++ pad2 d.minute ++ ":" ++ pad2 d.second

/-- Outcome of the pipeline after the firebase setup: the not-found message
printed before exit, an uncaught Python exception, or the saved image file
name together with the final drawing state. -/
inductive PipelineResult
  | notFound (msg : String)
  | err (e : PyErr)
  | saved (filename : String) (st : PlotState)
deriving DecidableEq

/-- The file name of a completed run, none when no image was written. -/
def PipelineResult.savedName : PipelineResult → Option String
  | PipelineResult.saved f _ => some f
  | _ => none

/-- Source lines 38-103, the pipeline after the firebase setup: read the
fixed reference (twice in the source, lines 39 and 79, which a pure store
makes coincide); when it holds nothing, print the not-found message naming
the fixed node address and exit; otherwise run the setup, the single
filter-and-plot pass, the suptitle, and save the image named from the
generation timestamp. -/
def pipeline (store : String → Option (List (String × Record))) (now : DateTime) :
    PipelineResult :=
  match store refPath with
  | none => PipelineResult.notFound "Node with MAC 98:D3:71:F6:48:88 not found"
  | some fetched =>
    match setupState with
    | Except.error e => PipelineResult.err e
    | Except.ok st0 =>
      match composePass now fetched st0 with
      | Except.error e => PipelineResult.err e
      | Except.ok st =>
        let st := suptitle st ("Readings for last " ++ "day" ++ " on " ++ strftimeTitle now)
        PipelineResult.saved ("data_" ++ strftimeFile now ++ ".png") st

/-- The names the module-level imports (source lines 1-5) and definitions
bind; sys and firebase_admin are not among them. -/
def moduleBindings : List String :=
  ["datetime", "timedelta", "credentials", "db", "plt",
   "get_time_period", "print_usage", "main"]

/-- Source lines 20-23: the usage text print_usage writes. -/
def usageLines : List String :=
  ["Correct usage:",
   "./NAME.py NODE_MAC INTERVAL",
   "INTERVAL: cycle(10 minutes), hour, day, week, month"]

/-- Outcome of main: the usage text printed followed by exit() (status 0), an
uncaught NameError, or the pipeline outcome. -/
inductive MainResult
  | usageExit (lines : List String)
  | nameError (n : String)
  | ran (r : PipelineResult)
deriving DecidableEq

/-- Source lines 26-41 and onward: main first evaluates len(sys.argv) (line
28), which resolves the name sys — unbound, so a NameError; were it bound,
fewer than three argv entries would print usage and exit, and otherwise line
34 would resolve firebase_admin — also unbound — before the pipeline runs. -/
def main (argv : List String) (store : String → Option (List (String × Record)))
    (now : DateTime) : MainResult :=
  if moduleBindings.contains "sys" then
    if argv.length < 3 then MainResult.usageExit usageLines
    else if moduleBindings.contains "firebase_admin" then
      MainResult.ran (pipeline store now)
    else MainResult.nameError "firebase_admin"
  else MainResult.nameError "sys"

/-! Concrete data used by the witnesses and counterexamples. -/

/-- A timestamp key two hours before now1, inside the day window. -/
def key1 : String := "2024-03-10-06-00-00"

/-- A timestamp key 32 hours before now1, outside the day window. -/
def key2 : String := "2024-03-09-00-00-00"

/-- The date-time key1 parses to. -/
def t1 : DateTime := ⟨2024, 3, 10, 6, 0, 0⟩

/-- A fixed reference time. -/
def now1 : DateTime := ⟨2024, 3, 10, 8, 0, 0⟩

/-- A record carrying all five quantities. -/
def fullRec : Record :=
  ⟨[("temperature", 21), ("pressure", 1013), ("ch4", 80), ("co", 3), ("humidity", 40)]⟩

/-- A record missing the humidity field. -/
def noHumRec : Record :=
  ⟨[("temperature", 21), ("pressure", 1013), ("ch4", 80), ("co", 3)]⟩

/-- A record missing the temperature field. -/
def noTempRec : Record :=
  ⟨[("pressure", 1013), ("ch4", 80), ("co", 3), ("humidity", 40)]⟩

/-- The path a run requesting node AA:BB:CC:DD:EE:FF would need to query. -/
def reqPath : String := "/logs/node_AA:BB:CC:DD:EE:FF"

/-- A store holding, at the fixed path only, one in-window record. -/
def storeFull : String → Option (List (String × Record)) :=
  fun p => if p = refPath then some [(key1, fullRec)] else none

/-- A store holding, at the fixed path only, one out-of-window record that
misses the humidity field. -/
def storeOld : String → Option (List (String × Record)) :=
  fun p => if p = refPath then some [(key2, noHumRec)] else none

/-! Helper lemmas shared by several of the results below. -/

/-- The setup sequence succeeds and leaves exactly setupStateOk behind. -/
theorem setupState_eq : setupState = Except.ok setupStateOk := rfl

/-- The window lookup of the pass always yields the day duration. -/
theorem windowLookup_eq : windowLookup = Except.ok 86400 := rfl

/-- Bind of an ok value reduces to the continuation. -/
theorem ok_bind {α β : Type} (a : α) (f : α → Except PyErr β) :
    (Except.ok a >>= f) = f a := rfl

/-- Bind of an error short-circuits. -/
theorem error_bind {α β : Type} (e : PyErr) (f : α → Except PyErr β) :
    (Except.error e >>= f) = Except.error e := rfl

/-- Inversion of a successful bind. -/
theorem bind_ok_inv {α β : Type} {x : Except PyErr α} {f : α → Except PyErr β} {b : β}
    (h : (x >>= f) = Except.ok b) : ∃ a, x = Except.ok a ∧ f a = Except.ok b := by
  cases x with
  | ok a => exact ⟨a, rfl, h⟩
  | error e => exact absurd h (by simp [error_bind])

/-- Parsing success propagates to the date step. -/
theorem dateLookup_some (k : String) (d : DateTime) (hp : parseTimestamp k = some d) :
    dateLookup k = Except.ok d := by
  unfold dateLookup
  rw [hp]

/-- Parsing failure propagates to the date step as the ValueError naming the
offending key. -/
theorem dateLookup_none (k : String) (hp : parseTimestamp k = none) :
    dateLookup k = Except.error (PyErr.valueError
      ("time data " ++ k ++ " does not match format %Y-%m-%d-%H-%M-%S")) := by
  unfold dateLookup
  rw [hp]

/-- Inversion of a successful record step: the reading parsed, failed the
recency filter, and the drawing state is untouched; an accepted reading can
never return ok because the chain reaches subplot (2,2,5), which errors. -/
theorem processRecord_ok_inv (now : DateTime) (st : PlotState) (k : String) (v : Record)
    (st' : PlotState) (h : processRecord now st k v = Except.ok st') :
    st' = st ∧ ∃ d, parseTimestamp k = some d ∧ is_recent d now 86400 = false := by
  unfold processRecord at h
  cases hp : parseTimestamp k with
  | none =>
    rw [dateLookup_none k hp, error_bind] at h
    exact absurd h (by simp)
  | some d =>
    rw [dateLookup_some k d hp, ok_bind, windowLookup_eq, ok_bind] at h
    cases hr : is_recent d now 86400 with
    | false =>
      rw [if_neg (by simp [hr])] at h
      refine ⟨(Except.ok.inj h).symm, d, rfl, hr⟩
    | true =>
      rw [if_pos hr] at h
      obtain ⟨s1, h1, h⟩ := bind_ok_inv h
      obtain ⟨t, ht, h⟩ := bind_ok_inv h
      obtain ⟨s2, h2, h⟩ := bind_ok_inv h
      obtain ⟨p, hpr, h⟩ := bind_ok_inv h
      obtain ⟨s3, h3, h⟩ := bind_ok_inv h
      obtain ⟨c4, hc4, h⟩ := bind_ok_inv h
      obtain ⟨s4, h4, h⟩ := bind_ok_inv h
      obtain ⟨co, hco, h⟩ := bind_ok_inv h
      obtain ⟨s5, h5, h⟩ := bind_ok_inv h
      exact absurd h5 (by simp [subplot])

/-- Inversion of a successful pass: the drawing state is untouched and every
fetched record parsed and failed the recency filter. -/
theorem composePass_ok_inv (now : DateTime) (fetched : List (String × Record)) :
    ∀ (st st' : PlotState), composePass now fetched st = Except.ok st' →
      st' = st ∧ ∀ kv ∈ fetched,
        ∃ d, parseTimestamp kv.1 = some d ∧ is_recent d now 86400 = false := by
  induction fetched with
  | nil =>
    intro st st' h
    rw [composePass] at h
    exact ⟨(Except.ok.inj h).symm, by simp⟩
  | cons kv rest ih =>
    intro st st' h
    obtain ⟨k, v⟩ := kv
    rw [composePass] at h
    obtain ⟨s1, h1, h2⟩ := bind_ok_inv h
    obtain ⟨hs1, d, hd, hr⟩ := processRecord_ok_inv now st k v s1 h1
    rw [hs1] at h2
    obtain ⟨hst, hall⟩ := ih st st' h2
    refine ⟨hst, ?_⟩
    intro x hx
    rcases List.mem_cons.mp hx with hx1 | hx2
    · subst hx1
      exact ⟨d, hd, hr⟩
    · exact hall x hx2

/-! The claims. -/

/-- C1, counterexample: the fetched mapping holds one reading two hours old,
inside the day window, so the filter accepts it; yet the compose step aborts
with the ValueError of subplot (2,2,5) before any complete PanelSeries
exists, so no sorted series containing the accepted pair is ever produced —
and no sort-on-timestamp step exists anywhere in the loop of lines 79-97. -/
theorem c1_counterexample :
    parseTimestamp key1 = some t1 ∧ is_recent t1 now1 86400 = true ∧
    composePass now1 [(key1, fullRec)] setupStateOk
      = Except.error (PyErr.valueError "num must be an integer with 1 <= num <= 4, not 5") := by
  decide

/-- C1, amended: the compose step performs no sorting at all; it consumes the
fetched mapping in storage iteration order, and a pass that completes did so
only because every fetched reading parsed and was rejected by the recency
filter, leaving every PanelSeries empty (an accepted reading aborts the pass
at the humidity subplot before completion). -/
theorem c1_completed_pass_has_empty_series (now : DateTime)
    (fetched : List (String × Record)) (st' : PlotState)
    (h : composePass now fetched setupStateOk = Except.ok st') :
    (∀ c : Cell, st'.seriesAt c = []) ∧
    ∀ kv ∈ fetched, ∃ d, parseTimestamp kv.1 = some d ∧ is_recent d now 86400 = false := by
  obtain ⟨hst, hall⟩ := composePass_ok_inv now fetched setupStateOk st' h
  subst hst
  exact ⟨fun c => rfl, hall⟩

/-- C1, witness: a pass over one out-of-window reading completes, and the
theorem applies to it. -/
theorem c1_witness :
    PlotState.seriesAt setupStateOk (2, 2, 3) = [] ∧
    ∃ d, parseTimestamp key2 = some d ∧ is_recent d now1 86400 = false :=
  ⟨(c1_completed_pass_has_empty_series now1 [(key2, fullRec)] setupStateOk (by decide)).1 (2, 2, 3),
   (c1_completed_pass_has_empty_series now1 [(key2, fullRec)] setupStateOk (by decide)).2
     (key2, fullRec) (by simp)⟩

/-- C2: the filter of lines 81-82 accepts a reading exactly when
now - t < window with strict inequality, rejects a reading exactly window
old, and accepts a future-dated reading (negative age) for any nonnegative
window, since the source performs no sign check. -/
theorem c2_is_recent_strict (t now : DateTime) (w : Int) :
    (is_recent t now w = true ↔ DateTime.sub now t < w) ∧
    is_recent t now (DateTime.sub now t) = false ∧
    (DateTime.sub now t < 0 → 0 ≤ w → is_recent t now w = true) := by
  refine ⟨by simp [is_recent], by simp [is_recent], ?_⟩
  intro h1 h2
  simp only [is_recent, decide_eq_true_eq]
  omega

/-- C2, witness: a reading two hours old is inside the day window, the
boundary delta is rejected, and a reading two hours in the future is
accepted for the cycle window. -/
theorem c2_witness :
    is_recent t1 now1 86400 = true ∧
    is_recent t1 now1 (DateTime.sub now1 t1) = false ∧
    is_recent now1 t1 600 = true :=
  ⟨(c2_is_recent_strict t1 now1 86400).1.mpr (by decide),
   (c2_is_recent_strict t1 now1 86400).2.1,
   (c2_is_recent_strict now1 t1 600).2.2 (by decide) (by decide)⟩

/-- C3: the interval table of lines 8-17 maps the five recognized names to
exactly the documented durations (in seconds), and any other name falls off
the table — the Python dict lookup raises KeyError, the failure the spec
calls UnknownIntervalError; the function is pure, with no side effects. -/
theorem c3_get_time_period_table (s : String)
    (h : s ∉ (["cycle", "hour", "day", "week", "month"] : List String)) :
    get_time_period "cycle" = some 600 ∧ get_time_period "hour" = some 3600 ∧
    get_time_period "day" = some 86400 ∧ get_time_period "week" = some 604800 ∧
    get_time_period "month" = some 2592000 ∧ get_time_period s = none := by
  refine ⟨rfl, rfl, rfl, rfl, rfl, ?_⟩
  simp only [List.mem_cons, List.not_mem_nil, or_false, not_or] at h
  obtain ⟨h1, h2, h3, h4, h5⟩ := h
  unfold get_time_period
  rw [if_neg h1, if_neg h2, if_neg h3, if_neg h4, if_neg h5]

/-- C3, witness: the table at the five names and at the unrecognized name
year. -/
theorem c3_witness :
    get_time_period "cycle" = some 600 ∧ get_time_period "hour" = some 3600 ∧
    get_time_period "day" = some 86400 ∧ get_time_period "week" = some 604800 ∧
    get_time_period "month" = some 2592000 ∧ get_time_period "year" = none :=
  c3_get_time_period_table "year" (by decide)

/-- C4: the pipeline ignores both positional arguments.  At a store whose
only data sits under the fixed path of line 38, a run that requested node
AA:BB:CC:DD:EE:FF (a path the store maps to none) still proceeds past the
gate, and its reading two hours old — which the requested hour interval,
3600 seconds, would exclude — is accepted by the hard-coded day window and
processed (the processing is what reaches the failing humidity subplot).
The command line in fact never reaches this code at all: main stops at the
NameError of line 28 first. -/
theorem c4_fixed_node_and_window :
    storeFull reqPath = none ∧
    get_time_period "hour" = some 3600 ∧
    is_recent t1 now1 3600 = false ∧
    is_recent t1 now1 86400 = true ∧
    pipeline storeFull now1
      = PipelineResult.err (PyErr.valueError "num must be an integer with 1 <= num <= 4, not 5") := by
  decide

/-- C5: the layout cannot hold five distinct panels.  The setup of lines
44-75 re-selects subplot (2,2,1) for the Humidity title, overwriting the
Temperature panel title, so the cell receiving temperature points is titled
Humidity; the humidity points themselves are sent to subplot (2,2,5), which
does not exist in a 2 by 2 grid and raises ValueError, aborting any run with
an accepted reading before an image is written.  The filename derivation
itself is as documented, shown by a run whose only reading is filtered out. -/
theorem c5_five_panel_layout_broken :
    PlotState.titleOf setupStateOk (2, 2, 1) = some "Humidity" ∧
    ((2, 2, 1), "Temperature") ∈ setupStateOk.titles ∧
    (∀ st : PlotState, subplot 2 2 5 st
      = Except.error (PyErr.valueError "num must be an integer with 1 <= num <= 4, not 5")) ∧
    (pipeline storeFull now1).savedName = none ∧
    (pipeline storeOld now1).savedName = some "data_2024_03_10_08_00_00.png" := by
  refine ⟨by decide, by decide, fun st => rfl, by decide, by decide⟩

/-- C6, counterexample: a fetched mapping whose single record misses the
humidity field but lies outside the day window; the pass never touches the
record fields, completes, and the image is written — no MalformedReadingError
aborts the run. -/
theorem c6_counterexample :
    Record.find noHumRec "humidity" = none ∧
    (pipeline storeOld now1).savedName = some "data_2024_03_10_08_00_00.png" := by
  decide

/-- C6, amended: an unparsable key always aborts the pass with a ValueError
whose message names the offending key; a missing field is detected only for
readings the filter accepts, and the error then names the missing field, not
the record key (shown for temperature); and a missing humidity field is never
itself reported, because subplot (2,2,5) fails first on any accepted reading. -/
theorem c6_malformed_record_behaviour (now : DateTime) (st : PlotState) (k : String)
    (v : Record) (rest : List (String × Record)) (hk : parseTimestamp k = none) :
    composePass now ((k, v) :: rest) st
      = Except.error (PyErr.valueError
          ("time data " ++ k ++ " does not match format %Y-%m-%d-%H-%M-%S")) ∧
    composePass now1 [(key1, noTempRec)] setupStateOk
      = Except.error (PyErr.keyError "temperature") ∧
    composePass now1 [(key1, noHumRec)] setupStateOk
      = Except.error (PyErr.valueError "num must be an integer with 1 <= num <= 4, not 5") := by
  refine ⟨?_, by decide, by decide⟩
  rw [composePass]
  show (processRecord now st k v >>= fun s1 => composePass now rest s1) = _
  rw [show processRecord now st k v = Except.error (PyErr.valueError
    ("time data " ++ k ++ " does not match format %Y-%m-%d-%H-%M-%S")) from by
      unfold processRecord
      rw [dateLookup_none k hk, error_bind], error_bind]

/-- C6, witness: the unparsable key garbage aborts the pass with the
ValueError naming it. -/
theorem c6_witness :
    composePass now1 [("garbage", fullRec)] setupStateOk
      = Except.error (PyErr.valueError
          ("time data " ++ "garbage" ++ " does not match format %Y-%m-%d-%H-%M-%S")) :=
  (c6_malformed_record_behaviour now1 setupStateOk "garbage" fullRec [] (by decide)).1

/-- C7, counterexample: the store returns no data for the path of the
requested node AA:BB:CC:DD:EE:FF, yet the pipeline does not halt with the
not-found report — it queries only the fixed path of line 38, finds data
there, runs the pass and writes the image. -/
theorem c7_counterexample :
    storeOld reqPath = none ∧
    (pipeline storeOld now1).savedName = some "data_2024_03_10_08_00_00.png" := by
  decide

/-- C7, amended: when the store returns no data for the fixed node
98:D3:71:F6:48:88 — the only node the pipeline ever queries — the run halts
at the gate of lines 39-41 with the message naming that fixed node, before
any filtering or composing, and no image file is produced. -/
theorem c7_no_data_gate (store : String → Option (List (String × Record)))
    (now : DateTime) (h : store refPath = none) :
    pipeline store now = PipelineResult.notFound "Node with MAC 98:D3:71:F6:48:88 not found" := by
  unfold pipeline
  rw [h]

/-- C7, witness: the empty store halts at the gate. -/
theorem c7_witness :
    pipeline (fun _ => none) now1
      = PipelineResult.notFound "Node with MAC 98:D3:71:F6:48:88 not found" :=
  c7_no_data_gate (fun _ => none) now1 rfl

/-- C8: invoked with no positional argument, main does not print usage and
does not exit cleanly: its very first statement evaluates len(sys.argv) and
the name sys is unbound (line 28, no import), so the run dies with an
uncaught NameError. -/
theorem c8_usage_path_unreachable :
    (["script.py"] : List String).length < 3 ∧
    main ["script.py"] (fun _ => none) now1 = MainResult.nameError "sys" := by
  exact ⟨by decide, rfl⟩

/-- C9: the filter-and-compose pass is a pure function of the fetched
mapping and the reference time (the interval is the constant day window of
line 82), so two runs on equal inputs return equal results, and when both
complete, every panel carries identical series content. -/
theorem c9_pass_deterministic (f1 f2 : List (String × Record)) (n1 n2 : DateTime)
    (hf : f1 = f2) (hn : n1 = n2) :
    composePass n1 f1 setupStateOk = composePass n2 f2 setupStateOk ∧
    ∀ st1 st2, composePass n1 f1 setupStateOk = Except.ok st1 →
      composePass n2 f2 setupStateOk = Except.ok st2 →
      ∀ c : Cell, st1.seriesAt c = st2.seriesAt c := by
  subst hf
  subst hn
  refine ⟨rfl, ?_⟩
  intro st1 st2 h1 h2 c
  rw [h1] at h2
  rw [Except.ok.inj h2]

/-- C9, witness: two runs of the pass over the same one-record mapping agree
on the CH4 panel. -/
theorem c9_witness :
    PlotState.seriesAt setupStateOk (2, 2, 3) = PlotState.seriesAt setupStateOk (2, 2, 3) :=
  (c9_pass_deterministic [(key2, fullRec)] [(key2, fullRec)] now1 now1 rfl rfl).2
    setupStateOk setupStateOk (by decide) (by decide) (2, 2, 3)

/-- C10: every invocation of main dies with the NameError for sys raised by
the argument-count check of line 28, whatever the argument vector, store
contents or clock say: the module imports bind neither sys nor
firebase_admin, so no path of main reaches the store, the pass or the image
write. -/
theorem c10_main_always_name_error (argv : List String)
    (store : String → Option (List (String × Record))) (now : DateTime) :
    main argv store now = MainResult.nameError "sys" ∧
    moduleBindings.contains "sys" = false ∧
    moduleBindings.contains "firebase_admin" = false :=
  ⟨rfl, rfl, rfl⟩

end DataFetcher
